import Mathlib

/-!
Shallow embedding of the radio-propagation engine
(`src/utils/ituCalculations.ts` and `src/utils/geo.ts`) over the reals,
together with theorems settling the specification claims about it.
JavaScript `number` arithmetic is modelled by `ℝ`; `Math.log10 x` by
`Real.logb 10 x`; `Math.round` by Mathlib's `round` (both are `⌊x + 1/2⌋`);
optional values by `Option`.  Record fields keep the source's names.
-/

namespace RadioProp

open Real

-- ── Data model (src/types/index.ts) ──────────────────────────────────────────

inductive TerrainType
  | FLAT | HILLY | MOUNTAINOUS | VALLEY
deriving DecidableEq

inductive GroundType
  | SEA | COAST | OPEN_LAND | FARMLAND | FOREST | SUBURBAN | URBAN | DENSE_URBAN
deriving DecidableEq

inductive VegetationType
  | NONE | CROPS | SPARSE_TREES | FOREST | JUNGLE
deriving DecidableEq

inductive ClimateZone
  | ARCTIC | TEMPERATE | SUBTROPICAL | TROPICAL | ARID
deriving DecidableEq

inductive PropagationModel
  | FSPL | ITU_P452 | ITU_P1546 | ITU_P526 | OKUMURA_HATA | AUTO
deriving DecidableEq

structure LatLng where
  lat : ℝ
  lng : ℝ

/-- Terrain profile; the two obstacle fields and the weather fields are
optional in the source (`obstaclePeakElevM?` etc.). -/
structure TerrainProfile where
  type : TerrainType
  groundType : GroundType
  climateZone : ClimateZone
  vegetation : VegetationType
  antennaHeightTxM : ℝ
  antennaHeightRxM : ℝ
  elevationTxM : ℝ
  elevationRxM : ℝ
  obstaclePeakElevM : Option ℝ := none
  obstacleDistFromTxKm : Option ℝ := none
  rainRateMmH : Option ℝ := none
  liquidWaterContentGm3 : Option ℝ := none

/-- `Partial<TerrainProfile>` as supplied by callers of `calcItuLinkBudget`:
every field optional. -/
structure PartialTerrainProfile where
  type : Option TerrainType := none
  groundType : Option GroundType := none
  climateZone : Option ClimateZone := none
  vegetation : Option VegetationType := none
  antennaHeightTxM : Option ℝ := none
  antennaHeightRxM : Option ℝ := none
  elevationTxM : Option ℝ := none
  elevationRxM : Option ℝ := none
  obstaclePeakElevM : Option ℝ := none
  obstacleDistFromTxKm : Option ℝ := none
  rainRateMmH : Option ℝ := none
  liquidWaterContentGm3 : Option ℝ := none

/-- The fields of `RadioEquipment` the engine reads (the remaining fields are
identification metadata never consumed by `ituCalculations.ts`). -/
structure RadioEquipment where
  rxSensitivityDbm : ℝ
  antennaGainDbi : ℝ

/-- The fields of `RadioLink` the engine reads (waveform, timing and routing
fields are ignored by the engine). -/
structure RadioLink where
  frequencyMhz : ℝ
  bandwidthKhz : ℝ
  txPowerW : ℝ

structure ConnectionQuality where
  score : ℤ
  label : String
  color : String
  availability : ℝ
  snrDb : ℝ

structure ItuLinkBudget where
  txPowerDbm : ℝ
  txGainDbi : ℝ
  rxGainDbi : ℝ
  fsplDb : ℝ
  terrainLossDb : ℝ
  atmosphericLossDb : ℝ
  receivedPowerDbm : ℝ
  rxSensitivityDbm : ℝ
  linkMarginDb : ℝ
  distanceKm : ℝ
  feasible : Prop
  model : PropagationModel
  diffractionLossDb : ℝ
  rainAttenuationDb : ℝ
  cloudFogAttenuationDb : ℝ
  gasAbsorptionDb : ℝ
  clutterLossDb : ℝ
  fresnelClearanceFraction : ℝ
  connectionQuality : ConnectionQuality

noncomputable section

-- ── Geodesy (src/utils/geo.ts) ───────────────────────────────────────────────

def toRad (deg : ℝ) : ℝ := deg * Real.pi / 180

/-- Haversine distance between two points (km). -/
def haversineKm (a b : LatLng) : ℝ :=
  let R : ℝ := 6371
  let dLat := toRad (b.lat - a.lat)
  let dLng := toRad (b.lng - a.lng)
  let sinDlat := Real.sin (dLat / 2)
  let sinDlng := Real.sin (dLng / 2)
  let h := sinDlat * sinDlat +
    Real.cos (toRad a.lat) * Real.cos (toRad b.lat) * sinDlng * sinDlng
  2 * R * Real.arcsin (Real.sqrt h)

-- ── ITU-R P.525 ──────────────────────────────────────────────────────────────

/-- Free-space path loss (dB). -/
def fspl (distKm freqMhz : ℝ) : ℝ :=
  if distKm ≤ 0 ∨ freqMhz ≤ 0 then 0
  else 20 * logb 10 distKm + 20 * logb 10 freqMhz + 32.44

-- ── ITU-R P.526 ──────────────────────────────────────────────────────────────

/-- Knife-edge diffraction loss (dB) from the Fresnel-Kirchhoff parameter ν;
piecewise approximation per ITU-R P.526-15. -/
def knifeEdgeDiffraction (nu : ℝ) : ℝ :=
  if nu < -1 then 0
  else if nu < 0 then -20 * logb 10 (0.5 - 0.62 * nu)
  else if nu < 1 then -20 * logb 10 (0.5 * Real.exp (-0.95 * nu))
  else if nu < 2.4 then
    -20 * logb 10 (0.4 - Real.sqrt (max 0 (0.1184 - (0.38 - 0.1 * nu) ^ 2)))
  else -20 * logb 10 (0.225 / nu)

/-- Fresnel-Kirchhoff diffraction parameter ν for a single obstacle;
`-2` is the no-obstacle sentinel. -/
def fresnelParameter (distKm freqMhz : ℝ) (terrain : TerrainProfile) : ℝ :=
  match terrain.obstaclePeakElevM, terrain.obstacleDistFromTxKm with
  | some peak, some d1 =>
    if d1 ≤ 0 ∨ distKm - d1 ≤ 0 then -2
    else
      let txElev := terrain.elevationTxM + terrain.antennaHeightTxM
      let rxElev := terrain.elevationRxM + terrain.antennaHeightRxM
      let losAtObstacle := txElev + (rxElev - txElev) * (d1 / distKm)
      let h := peak - losAtObstacle
      let lambda := 300 / freqMhz
      let d1m := d1 * 1000
      let d2m := (distKm - d1) * 1000
      h * Real.sqrt ((2 * (d1m + d2m)) / (lambda * d1m * d2m))
  | _, _ => -2

/-- Total diffraction loss (dB) for a path. -/
def calcDiffractionLoss (distKm freqMhz : ℝ) (terrain : TerrainProfile) : ℝ :=
  max 0 (knifeEdgeDiffraction (fresnelParameter distKm freqMhz terrain))

/-- Fraction of the first Fresnel zone radius that is unobstructed (0–1). -/
def fresnelClearance (distKm freqMhz : ℝ) (terrain : TerrainProfile) : ℝ :=
  match terrain.obstaclePeakElevM, terrain.obstacleDistFromTxKm with
  | some peak, some d1 =>
    if d1 ≤ 0 ∨ distKm - d1 ≤ 0 then 1
    else
      let lambda := 300 / freqMhz
      let d1m := d1 * 1000
      let d2m := (distKm - d1) * 1000
      let r1 := Real.sqrt ((lambda * d1m * d2m) / (d1m + d2m))
      let txElev := terrain.elevationTxM + terrain.antennaHeightTxM
      let rxElev := terrain.elevationRxM + terrain.antennaHeightRxM
      let losH := txElev + (rxElev - txElev) * (d1 / distKm)
      let clearanceM := losH - peak
      min 1 (max 0 (clearanceM / r1 + 1))
  | _, _ => 1

-- ── ITU-R P.676 ──────────────────────────────────────────────────────────────

/-- Specific attenuation by atmospheric gases (dB/km) at sea level. -/
def specificGasAttenuation (freqMhz : ℝ) : ℝ :=
  let fGhz := freqMhz / 1000
  if fGhz < 0.1 then 0
  else
    let gammaO2 : ℝ :=
      if fGhz < 50 then 7.19e-3
      else if fGhz < 57 then 7.19e-3 + (fGhz - 50) * (14.5 / 7)
      else if fGhz < 63 then 14.5
      else if fGhz < 100 then 14.5 * Real.exp (-((fGhz - 63) / 10) ^ 2)
      else 0.05
    let gammaH2O : ℝ :=
      if fGhz < 1 then 0
      else if fGhz < 22 then 0.001 + (fGhz / 22) * 0.17
      else if fGhz < 23 then 0.18
      else if fGhz < 183 then 0.05 + (fGhz / 183) * 0.1
      else if fGhz < 185 then 30
      else 0.5
    gammaO2 + gammaH2O

/-- Total atmospheric gas absorption along the path (dB). -/
def gasAbsorption (distKm freqMhz : ℝ) : ℝ :=
  specificGasAttenuation freqMhz * distKm

-- ── ITU-R P.838 ──────────────────────────────────────────────────────────────

/-- Tabulated (f_GHz, k_H, α_H) from ITU-R P.838-3 Table 1. -/
def rainTable : List (ℝ × ℝ × ℝ) :=
  [(1, 0.0000387, 0.912), (2, 0.000154, 0.963), (4, 0.000650, 1.121),
   (6, 0.00175, 1.308), (7, 0.00301, 1.332), (8, 0.00454, 1.327),
   (10, 0.0101, 1.276), (12, 0.0188, 1.217), (15, 0.0367, 1.154),
   (20, 0.0751, 1.099), (25, 0.124, 1.061), (30, 0.187, 1.021),
   (35, 0.263, 0.979), (40, 0.350, 0.939), (50, 0.536, 0.873),
   (60, 0.707, 0.826), (80, 1.07, 0.767), (100, 1.42, 0.731)]

/-- Log-linear interpolation between two adjacent rows of the rain table. -/
def rainInterp (fGhz : ℝ) (p q : ℝ × ℝ × ℝ) : ℝ × ℝ :=
  let t := (logb 10 fGhz - logb 10 p.1) / (logb 10 q.1 - logb 10 p.1)
  ((10 : ℝ) ^ (logb 10 p.2.1 + t * (logb 10 q.2.1 - logb 10 p.2.1)),
   p.2.2 + t * (q.2.2 - p.2.2))

/-- Scan of the rain table: the source's `for` loop returning the first
segment whose upper frequency bounds `fGhz`. -/
def rainScan (fGhz : ℝ) (prev : ℝ × ℝ × ℝ) : List (ℝ × ℝ × ℝ) → ℝ × ℝ
  | [] => (prev.2.1, prev.2.2)
  | q :: rest => if fGhz ≤ q.1 then rainInterp fGhz prev q else rainScan fGhz q rest

/-- Frequency-dependent coefficients k and α for rain attenuation. -/
def rainCoefficients (freqMhz : ℝ) : ℝ × ℝ :=
  let fGhz := freqMhz / 1000
  if fGhz ≤ 1 then (0.0000387, 0.912)
  else if 100 ≤ fGhz then (1.42, 0.731)
  else rainScan fGhz (1, 0.0000387, 0.912) (rainTable.drop 1)

/-- Total rain attenuation along the path (dB), ITU-R P.838-3 power law with
the P.530 path-reduction factor. -/
def rainAttenuation (distKm freqMhz rainRateMmH : ℝ) : ℝ :=
  if rainRateMmH ≤ 0 ∨ freqMhz < 1000 then 0
  else
    let c := rainCoefficients freqMhz
    let gammaR := c.1 * rainRateMmH ^ c.2
    let r := 1 / (1 + 0.045 * distKm)
    gammaR * distKm * r

-- ── ITU-R P.840 ──────────────────────────────────────────────────────────────

/-- Specific attenuation coefficient K_l (dB/km per g/m³) for liquid water. -/
def cloudLiquidAttenuationCoeff (freqMhz : ℝ) : ℝ :=
  let fGhz := freqMhz / 1000
  if fGhz < 1 then 0 else 0.0671 * (fGhz / 10) ^ (1.74 : ℝ)

/-- Cloud and fog attenuation (dB), ITU-R P.840-8. -/
def cloudFogAttenuation (distKm freqMhz lwcGm3 : ℝ) : ℝ :=
  if lwcGm3 ≤ 0 ∨ freqMhz < 10000 then 0
  else cloudLiquidAttenuationCoeff freqMhz * lwcGm3 * distKm

-- ── ITU-R P.2108 — Clutter loss ──────────────────────────────────────────────

/-- Median clutter loss at the terminal (dB). -/
def clutterLoss (freqMhz : ℝ) (groundType : GroundType) : ℝ :=
  let fGhz := freqMhz / 1000
  match groundType with
  | .SEA => 0
  | .COAST => 0.5
  | .OPEN_LAND => 1
  | .FARMLAND => 2
  | .FOREST => min 15 (5 + 4 * logb 10 (max fGhz 0.03 / 0.03))
  | .SUBURBAN => 6 + 1.5 * logb 10 (max fGhz 0.1 / 0.1)
  | .URBAN => 12 + 2 * logb 10 (max fGhz 0.1 / 0.1)
  | .DENSE_URBAN => 20 + 3 * logb 10 (max fGhz 0.1 / 0.1)

-- ── Okumura-Hata (150–1500 MHz) ──────────────────────────────────────────────

/-- Okumura-Hata path loss (dB); falls back to FSPL outside its validity
range. -/
def okumuraHataLoss (distKm freqMhz hteTxM hreRxM : ℝ)
    (groundType : GroundType) : ℝ :=
  if distKm < 0.1 ∨ freqMhz < 150 ∨ 1500 < freqMhz then fspl distKm freqMhz
  else
    let fc := freqMhz
    let d := max distKm 0.1
    let hte := max hteTxM 1
    let hre := max hreRxM 0.5
    let aHre := (1.1 * logb 10 fc - 0.7) * hre - (1.56 * logb 10 fc - 0.8)
    let Lb := 69.55 + 26.16 * logb 10 fc - 13.82 * logb 10 hte - aHre +
      (44.9 - 6.55 * logb 10 hte) * logb 10 d
    match groundType with
    | .DENSE_URBAN => Lb
    | .URBAN => Lb
    | .SUBURBAN => Lb - 2 * (logb 10 (fc / 28)) ^ 2 - 5.4
    | .OPEN_LAND => Lb - 4.78 * (logb 10 fc) ^ 2 + 18.33 * logb 10 fc - 40.94
    | .FARMLAND => Lb - 4.78 * (logb 10 fc) ^ 2 + 18.33 * logb 10 fc - 40.94
    | _ => Lb - 2 * (logb 10 (fc / 28)) ^ 2 - 5.4

-- ── ITU-R P.1546 simplified ──────────────────────────────────────────────────

/-- Simplified ITU-R P.1546 path loss estimate for VHF/UHF (30–3000 MHz). -/
def ituP1546Loss (distKm freqMhz : ℝ) (terrain : TerrainProfile) : ℝ :=
  if freqMhz < 30 ∨ 3000 < freqMhz then fspl distKm freqMhz
  else
    let heff := terrain.antennaHeightTxM
    let n : ℝ :=
      if freqMhz < 300 then (if terrain.type = .FLAT then 3 else 3.5)
      else (if terrain.type = .FLAT then 3.5 else 4)
    let hGain := 20 * logb 10 (max heff 1 / 10)
    let baseLoss := fspl 1 freqMhz
    baseLoss + 10 * n * logb 10 (max distKm 0.01) - hGain

-- ── Model selection ──────────────────────────────────────────────────────────

/-- Automatically select the most appropriate propagation model. -/
def selectModel (freqMhz distKm : ℝ) (terrain : TerrainProfile) : PropagationModel :=
  let hasObstacle :=
    terrain.obstaclePeakElevM.isSome = true ∧
    terrain.obstacleDistFromTxKm.isSome = true
  if hasObstacle ∧ 30 ≤ freqMhz then .ITU_P526
  else if freqMhz < 30 then .FSPL
  else
    let isUrban := terrain.groundType = .URBAN ∨
      terrain.groundType = .DENSE_URBAN ∨ terrain.groundType = .SUBURBAN
    if freqMhz ≤ 1500 ∧ isUrban ∧ 1 ≤ distKm then .OKUMURA_HATA
    else if freqMhz ≤ 3000 then .ITU_P1546
    else .FSPL

-- ── Connection quality ───────────────────────────────────────────────────────

def NOISE_FIGURE_DB : ℝ := 6

/-- Thermal noise floor (dBm) for a given bandwidth. -/
def thermalNoise (bandwidthKhz : ℝ) : ℝ :=
  -174 + 10 * logb 10 (bandwidthKhz * 1000) + NOISE_FIGURE_DB

/-- Gauss error function — Abramowitz–Stegun 5-term approximation. -/
def erf (x : ℝ) : ℝ :=
  let sign : ℝ := if 0 ≤ x then 1 else -1
  let y := |x|
  let t := 1 / (1 + 0.3275911 * y)
  let poly := t * (0.254829592 + t * (-0.284496736 + t * (1.421413741 +
    t * (-1.453152027 + t * 1.061405429))))
  sign * (1 - poly * Real.exp (-(y * y)))

structure QualityParams where
  linkMarginDb : ℝ
  fresnelClearanceFraction : ℝ
  txGainDbi : ℝ
  rxGainDbi : ℝ
  receivedPowerDbm : ℝ
  bandwidthKhz : ℝ
  rainAttenuationDb : ℝ
  cloudFogAttenuationDb : ℝ

/-- The rounded weighted sum of the four quality sub-scores (the value the
source stores in `score` before the infeasibility cap). -/
def weightedScore (q : QualityParams) : ℤ :=
  let marginScore := min 50 (max 0 (q.linkMarginDb / 30 * 50))
  let fresnelScore := min 20 (max 0 (q.fresnelClearanceFraction * 20))
  let weatherLoss := q.rainAttenuationDb + q.cloudFogAttenuationDb
  let weatherReliability := max 0 (1 - weatherLoss / max (weatherLoss + 10) 10)
  let weatherScore := weatherReliability * 20
  let totalGain := q.txGainDbi + q.rxGainDbi
  let gainScore := min 10 (max 0 (totalGain / 20 * 10))
  round (marginScore + fresnelScore + weatherScore + gainScore)

/-- The source's label assignment: the five-band threshold chain on the
final score. -/
def qualityLabel (score : ℤ) : String :=
  if 80 ≤ score then "Utmärkt"
  else if 60 ≤ score then "God"
  else if 40 ≤ score then "Acceptabel"
  else if 20 ≤ score then "Svag"
  else "Otillräcklig"

/-- The source's colour assignment, on the same thresholds. -/
def qualityColor (score : ℤ) : String :=
  if 80 ≤ score then "#22c55e"
  else if 60 ≤ score then "#86efac"
  else if 40 ≤ score then "#facc15"
  else if 20 ≤ score then "#f97316"
  else "#ef4444"

/-- Composite connection quality score and related indicators. -/
def connectionQuality (q : QualityParams) : ConnectionQuality :=
  let score0 := weightedScore q
  let score : ℤ :=
    if q.linkMarginDb < 0 then
      min score0 (max 0 (19 + round (q.linkMarginDb * 2)))
    else score0
  let noise := thermalNoise (max q.bandwidthKhz 1)
  let snrDb := q.receivedPowerDbm - noise
  let sigmaFade : ℝ := 8
  let z := q.linkMarginDb / (sigmaFade * Real.sqrt 2)
  let availability := 0.5 * (1 + erf z)
  { score := score, label := qualityLabel score, color := qualityColor score,
    availability := availability, snrDb := snrDb }

-- ── Full ITU link budget ─────────────────────────────────────────────────────

/-- Convert Watts to dBm. -/
def wToDbm (w : ℝ) : ℝ := 10 * logb 10 (w * 1000)

/-- Merge a caller-supplied partial terrain with the defaults used by
`calcItuLinkBudget`. -/
def mergeTerrain (terrain : Option PartialTerrainProfile) : TerrainProfile :=
  let p := terrain.getD {}
  { type := p.type.getD .FLAT
    groundType := p.groundType.getD .OPEN_LAND
    climateZone := p.climateZone.getD .TEMPERATE
    vegetation := p.vegetation.getD .NONE
    antennaHeightTxM := p.antennaHeightTxM.getD 2
    antennaHeightRxM := p.antennaHeightRxM.getD 2
    elevationTxM := p.elevationTxM.getD 0
    elevationRxM := p.elevationRxM.getD 0
    obstaclePeakElevM := p.obstaclePeakElevM
    obstacleDistFromTxKm := p.obstacleDistFromTxKm
    rainRateMmH := some (p.rainRateMmH.getD 0)
    liquidWaterContentGm3 := some (p.liquidWaterContentGm3.getD 0) }

/-- Calculate a full ITU-aware link budget. -/
def calcItuLinkBudget (a b : LatLng) (link : RadioLink)
    (fromEquip toEquip : Option RadioEquipment)
    (terrain : Option PartialTerrainProfile)
    (forceModel : Option PropagationModel) : ItuLinkBudget :=
  let distKm := haversineKm a b
  let freqMhz := link.frequencyMhz
  let t := mergeTerrain terrain
  let txPowerDbm := wToDbm link.txPowerW
  let txGainDbi := (fromEquip.map RadioEquipment.antennaGainDbi).getD 0
  let rxGainDbi := (toEquip.map RadioEquipment.antennaGainDbi).getD 0
  let rxSensDbm := (toEquip.map RadioEquipment.rxSensitivityDbm).getD (-110)
  let model : PropagationModel :=
    match forceModel with
    | some m => if m = .AUTO then selectModel freqMhz distKm t else m
    | none => selectModel freqMhz distKm t
  let baseLossDb : ℝ :=
    match model with
    | .OKUMURA_HATA =>
      okumuraHataLoss distKm freqMhz t.antennaHeightTxM t.antennaHeightRxM t.groundType
    | .ITU_P1546 => ituP1546Loss distKm freqMhz t
    | _ => fspl distKm freqMhz
  let diffractionLossDb :=
    if model = .ITU_P526 then calcDiffractionLoss distKm freqMhz t else 0
  let gasAbsorptionDb := gasAbsorption distKm freqMhz
  let rainAttenuationDb := rainAttenuation distKm freqMhz (t.rainRateMmH.getD 0)
  let cloudFogDb := cloudFogAttenuation distKm freqMhz (t.liquidWaterContentGm3.getD 0)
  let clutterLossDb :=
    if model = .OKUMURA_HATA then 0 else clutterLoss freqMhz t.groundType
  let totalLossDb := baseLossDb + diffractionLossDb + gasAbsorptionDb +
    rainAttenuationDb + cloudFogDb + clutterLossDb
  let receivedPowerDbm := txPowerDbm + txGainDbi - totalLossDb + rxGainDbi
  let linkMarginDb := receivedPowerDbm - rxSensDbm
  let fresnelFraction := fresnelClearance distKm freqMhz t
  let quality := connectionQuality
    { linkMarginDb := linkMarginDb
      fresnelClearanceFraction := fresnelFraction
      txGainDbi := txGainDbi
      rxGainDbi := rxGainDbi
      receivedPowerDbm := receivedPowerDbm
      bandwidthKhz := link.bandwidthKhz
      rainAttenuationDb := rainAttenuationDb
      cloudFogAttenuationDb := cloudFogDb }
  { txPowerDbm := txPowerDbm
    txGainDbi := txGainDbi
    rxGainDbi := rxGainDbi
    fsplDb := baseLossDb
    terrainLossDb := clutterLossDb
    atmosphericLossDb := gasAbsorptionDb + rainAttenuationDb + cloudFogDb
    receivedPowerDbm := receivedPowerDbm
    rxSensitivityDbm := rxSensDbm
    linkMarginDb := linkMarginDb
    distanceKm := distKm
    feasible := 0 < linkMarginDb
    model := model
    diffractionLossDb := diffractionLossDb
    rainAttenuationDb := rainAttenuationDb
    cloudFogAttenuationDb := cloudFogDb
    gasAbsorptionDb := gasAbsorptionDb
    clutterLossDb := clutterLossDb
    fresnelClearanceFraction := fresnelFraction
    connectionQuality := quality }

-- ── Spec-side twin of the model selector ─────────────────────────────────────

/-- Selector written to the specification's words (§4.11 five-rule priority
order), to be compared with the source's `selectModel`:
1. obstacle present and f ≥ 30 MHz → ITU_P526;
2. else f < 30 MHz → FSPL;
3. else f ≤ 1500 MHz and ground_type ∈ SUBURBAN, URBAN, DENSE_URBAN
   and d ≥ 1 km → OKUMURA_HATA;
4. else f ≤ 3000 MHz → ITU_P1546;
5. else FSPL. -/
def selectModelSpec (freqMhz distKm : ℝ) (terrain : TerrainProfile) : PropagationModel :=
  if (terrain.obstaclePeakElevM.isSome = true ∧
      terrain.obstacleDistFromTxKm.isSome = true) ∧ 30 ≤ freqMhz then .ITU_P526
  else if freqMhz < 30 then .FSPL
  else if freqMhz ≤ 1500 ∧
      (terrain.groundType = .SUBURBAN ∨ terrain.groundType = .URBAN ∨
        terrain.groundType = .DENSE_URBAN) ∧ 1 ≤ distKm then .OKUMURA_HATA
  else if freqMhz ≤ 3000 then .ITU_P1546
  else .FSPL

-- ── Concrete terrain profiles used as test inputs ────────────────────────────

/-- A terrain supplying both obstacle fields, but with the obstacle distance
-1 km, outside the open interval (0, dist). -/
def terrainObstacleOutside : TerrainProfile :=
  { type := .FLAT, groundType := .OPEN_LAND, climateZone := .TEMPERATE,
    vegetation := .NONE, antennaHeightTxM := 2, antennaHeightRxM := 2,
    elevationTxM := 0, elevationRxM := 0,
    obstaclePeakElevM := some 300, obstacleDistFromTxKm := some (-1),
    rainRateMmH := some 0, liquidWaterContentGm3 := some 0 }

/-- The same terrain with no obstacle supplied at all. -/
def terrainNoObstacle : TerrainProfile :=
  { type := .FLAT, groundType := .OPEN_LAND, climateZone := .TEMPERATE,
    vegetation := .NONE, antennaHeightTxM := 2, antennaHeightRxM := 2,
    elevationTxM := 0, elevationRxM := 0,
    rainRateMmH := some 0, liquidWaterContentGm3 := some 0 }

-- ── Structural facts about the assembled budget ──────────────────────────────

lemma budget_model_eq (a b : LatLng) (link : RadioLink)
    (fe te : Option RadioEquipment) (terr : Option PartialTerrainProfile)
    (force : Option PropagationModel) :
    (calcItuLinkBudget a b link fe te terr force).model =
      match force with
      | some m => if m = .AUTO
          then selectModel link.frequencyMhz (haversineKm a b) (mergeTerrain terr)
          else m
      | none => selectModel link.frequencyMhz (haversineKm a b) (mergeTerrain terr) := rfl

lemma budget_fsplDb_eq (a b : LatLng) (link : RadioLink)
    (fe te : Option RadioEquipment) (terr : Option PartialTerrainProfile)
    (force : Option PropagationModel) :
    (calcItuLinkBudget a b link fe te terr force).fsplDb =
      match (calcItuLinkBudget a b link fe te terr force).model with
      | .OKUMURA_HATA => okumuraHataLoss (haversineKm a b) link.frequencyMhz
          (mergeTerrain terr).antennaHeightTxM (mergeTerrain terr).antennaHeightRxM
          (mergeTerrain terr).groundType
      | .ITU_P1546 => ituP1546Loss (haversineKm a b) link.frequencyMhz (mergeTerrain terr)
      | _ => fspl (haversineKm a b) link.frequencyMhz := rfl

lemma budget_diffraction_eq (a b : LatLng) (link : RadioLink)
    (fe te : Option RadioEquipment) (terr : Option PartialTerrainProfile)
    (force : Option PropagationModel) :
    (calcItuLinkBudget a b link fe te terr force).diffractionLossDb =
      (if (calcItuLinkBudget a b link fe te terr force).model = .ITU_P526
        then calcDiffractionLoss (haversineKm a b) link.frequencyMhz (mergeTerrain terr)
        else 0) := rfl

lemma budget_clutter_eq (a b : LatLng) (link : RadioLink)
    (fe te : Option RadioEquipment) (terr : Option PartialTerrainProfile)
    (force : Option PropagationModel) :
    (calcItuLinkBudget a b link fe te terr force).clutterLossDb =
      (if (calcItuLinkBudget a b link fe te terr force).model = .OKUMURA_HATA
        then 0
        else clutterLoss link.frequencyMhz (mergeTerrain terr).groundType) := rfl

lemma budget_gas_eq (a b : LatLng) (link : RadioLink)
    (fe te : Option RadioEquipment) (terr : Option PartialTerrainProfile)
    (force : Option PropagationModel) :
    (calcItuLinkBudget a b link fe te terr force).gasAbsorptionDb =
      gasAbsorption (haversineKm a b) link.frequencyMhz := rfl

lemma budget_rain_eq (a b : LatLng) (link : RadioLink)
    (fe te : Option RadioEquipment) (terr : Option PartialTerrainProfile)
    (force : Option PropagationModel) :
    (calcItuLinkBudget a b link fe te terr force).rainAttenuationDb =
      rainAttenuation (haversineKm a b) link.frequencyMhz
        ((mergeTerrain terr).rainRateMmH.getD 0) := rfl

lemma budget_cloud_eq (a b : LatLng) (link : RadioLink)
    (fe te : Option RadioEquipment) (terr : Option PartialTerrainProfile)
    (force : Option PropagationModel) :
    (calcItuLinkBudget a b link fe te terr force).cloudFogAttenuationDb =
      cloudFogAttenuation (haversineKm a b) link.frequencyMhz
        ((mergeTerrain terr).liquidWaterContentGm3.getD 0) := rfl

-- ── C1 ───────────────────────────────────────────────────────────────────────

/-- C1: for every frequency, distance and terrain profile, `selectModel`
returns exactly the model given by the specification's five-rule priority
order; the result is never `AUTO`; and in `calcItuLinkBudget` a caller-forced
model replaces this choice except that a forced `AUTO` means automatic
selection. -/
theorem selectModel_follows_spec_priority :
    (∀ (f d : ℝ) (t : TerrainProfile), selectModel f d t = selectModelSpec f d t) ∧
    (∀ (f d : ℝ) (t : TerrainProfile), selectModel f d t ≠ .AUTO) ∧
    (∀ (a b : LatLng) (link : RadioLink) (fe te : Option RadioEquipment)
      (terr : Option PartialTerrainProfile) (force : Option PropagationModel),
      (calcItuLinkBudget a b link fe te terr force).model =
        match force with
        | some m => if m = .AUTO
            then selectModel link.frequencyMhz (haversineKm a b) (mergeTerrain terr)
            else m
        | none => selectModel link.frequencyMhz (haversineKm a b) (mergeTerrain terr)) := by
  refine ⟨?_, ?_, ?_⟩
  · intro f d t
    simp only [selectModel, selectModelSpec]
    split_ifs <;> first | rfl | tauto
  · intro f d t
    simp only [selectModel]
    split_ifs <;> simp
  · intro a b link fe te terr force
    exact budget_model_eq a b link fe te terr force

-- ── C7 ───────────────────────────────────────────────────────────────────────

/-- C7: in every budget produced by `calcItuLinkBudget`, the diffraction loss
is exactly 0 for every model other than `ITU_P526`, the clutter loss is
exactly 0 whenever the model is `OKUMURA_HATA`, and the gas, rain and
cloud/fog losses are always computed (from the distance, frequency and merged
terrain) regardless of the model. -/
theorem budget_loss_component_gating (a b : LatLng) (link : RadioLink)
    (fe te : Option RadioEquipment) (terr : Option PartialTerrainProfile)
    (force : Option PropagationModel) :
    ((calcItuLinkBudget a b link fe te terr force).model ≠ .ITU_P526 →
      (calcItuLinkBudget a b link fe te terr force).diffractionLossDb = 0) ∧
    ((calcItuLinkBudget a b link fe te terr force).model = .OKUMURA_HATA →
      (calcItuLinkBudget a b link fe te terr force).clutterLossDb = 0) ∧
    (calcItuLinkBudget a b link fe te terr force).gasAbsorptionDb =
      gasAbsorption (haversineKm a b) link.frequencyMhz ∧
    (calcItuLinkBudget a b link fe te terr force).rainAttenuationDb =
      rainAttenuation (haversineKm a b) link.frequencyMhz
        ((mergeTerrain terr).rainRateMmH.getD 0) ∧
    (calcItuLinkBudget a b link fe te terr force).cloudFogAttenuationDb =
      cloudFogAttenuation (haversineKm a b) link.frequencyMhz
        ((mergeTerrain terr).liquidWaterContentGm3.getD 0) := by
  refine ⟨?_, ?_, budget_gas_eq .., budget_rain_eq .., budget_cloud_eq ..⟩
  · intro h
    rw [budget_diffraction_eq, if_neg h]
  · intro h
    rw [budget_clutter_eq, if_pos h]

/-- Witness for C7 at a concrete input: a forced Okumura-Hata budget has zero
clutter loss, and (its model being distinct from ITU_P526) zero diffraction
loss. -/
theorem budget_loss_component_gating_witness :
    (calcItuLinkBudget ⟨59.33, 18.07⟩ ⟨59.34, 18.09⟩ ⟨400, 25, 5⟩ none none none
      (some .OKUMURA_HATA)).diffractionLossDb = 0 ∧
    (calcItuLinkBudget ⟨59.33, 18.07⟩ ⟨59.34, 18.09⟩ ⟨400, 25, 5⟩ none none none
      (some .OKUMURA_HATA)).clutterLossDb = 0 := by
  have hm : (calcItuLinkBudget ⟨59.33, 18.07⟩ ⟨59.34, 18.09⟩ ⟨400, 25, 5⟩ none none none
      (some .OKUMURA_HATA)).model = .OKUMURA_HATA := rfl
  refine ⟨?_, ?_⟩
  · exact (budget_loss_component_gating ⟨59.33, 18.07⟩ ⟨59.34, 18.09⟩ ⟨400, 25, 5⟩
      none none none (some .OKUMURA_HATA)).1 (by rw [hm]; decide)
  · exact (budget_loss_component_gating ⟨59.33, 18.07⟩ ⟨59.34, 18.09⟩ ⟨400, 25, 5⟩
      none none none (some .OKUMURA_HATA)).2.1 hm

-- ── C10 ──────────────────────────────────────────────────────────────────────

/-- C10: whenever the model used by `calcItuLinkBudget` is neither
`OKUMURA_HATA` nor `ITU_P1546` (so `ITU_P526`, `FSPL`, a forced `ITU_P452`,
or any other such outcome), the base loss stored in the budget equals
`fspl distKm freqMhz`: the diffraction model contributes no base loss of its
own. -/
theorem baseLoss_is_fspl_for_other_models (a b : LatLng) (link : RadioLink)
    (fe te : Option RadioEquipment) (terr : Option PartialTerrainProfile)
    (force : Option PropagationModel)
    (h1 : (calcItuLinkBudget a b link fe te terr force).model ≠ .OKUMURA_HATA)
    (h2 : (calcItuLinkBudget a b link fe te terr force).model ≠ .ITU_P1546) :
    (calcItuLinkBudget a b link fe te terr force).fsplDb =
      fspl (haversineKm a b) link.frequencyMhz := by
  rw [budget_fsplDb_eq]
  rcases hm : (calcItuLinkBudget a b link fe te terr force).model <;>
    first
      | rfl
      | exact absurd hm h1
      | exact absurd hm h2

/-- Witness for C10 at a concrete input: a forced ITU_P452 budget carries the
free-space loss as its base loss. -/
theorem baseLoss_is_fspl_for_other_models_witness :
    (calcItuLinkBudget ⟨59.33, 18.07⟩ ⟨59.36, 18.04⟩ ⟨45.5, 25, 50⟩ none none none
      (some .ITU_P452)).fsplDb =
      fspl (haversineKm ⟨59.33, 18.07⟩ ⟨59.36, 18.04⟩) (45.5 : ℝ) := by
  have hm : (calcItuLinkBudget ⟨59.33, 18.07⟩ ⟨59.36, 18.04⟩ ⟨45.5, 25, 50⟩ none none none
      (some .ITU_P452)).model = .ITU_P452 := rfl
  exact baseLoss_is_fspl_for_other_models ⟨59.33, 18.07⟩ ⟨59.36, 18.04⟩ ⟨45.5, 25, 50⟩
    none none none (some .ITU_P452) (by rw [hm]; decide) (by rw [hm]; decide)

-- ── C3 ───────────────────────────────────────────────────────────────────────

/-- C3 counterexample: at f = 100 MHz, d = 10 km, with obstacle distance
-1 km (outside (0, 10)), the automatically selected model is `ITU_P526` —
not the `ITU_P1546` that would be selected with no obstacle present — so the
engine does not behave exactly as if no obstacle were supplied. -/
theorem selectModel_obstacle_outside_counterexample :
    selectModel 100 10 terrainObstacleOutside = .ITU_P526 ∧
    selectModel 100 10 terrainNoObstacle = .ITU_P1546 ∧
    selectModel 100 10 terrainObstacleOutside ≠
      selectModel 100 10 terrainNoObstacle := by
  refine ⟨?_, ?_, ?_⟩
  · simp only [selectModel, terrainObstacleOutside]
    rw [if_pos]
    exact ⟨⟨rfl, rfl⟩, by norm_num⟩
  · simp only [selectModel, terrainNoObstacle]
    rw [if_neg, if_neg, if_neg, if_pos]
    · norm_num
    · rintro ⟨-, h, -⟩
      rcases h with h | h | h <;> exact absurd h (by decide)
    · norm_num
    · rintro ⟨⟨h, -⟩, -⟩
      exact absurd h (by decide)
  · intro h
    rw [show selectModel 100 10 terrainObstacleOutside = .ITU_P526 from by
          simp only [selectModel, terrainObstacleOutside]
          rw [if_pos]; exact ⟨⟨rfl, rfl⟩, by norm_num⟩,
        show selectModel 100 10 terrainNoObstacle = .ITU_P1546 from by
          simp only [selectModel, terrainNoObstacle]
          rw [if_neg, if_neg, if_neg, if_pos]
          · norm_num
          · rintro ⟨-, h, -⟩
            rcases h with h | h | h <;> exact absurd h (by decide)
          · norm_num
          · rintro ⟨⟨h, -⟩, -⟩
            exact absurd h (by decide)] at h
    exact PropagationModel.noConfusion h

/-- C3 amended: when both obstacle fields are supplied but the obstacle
distance lies outside the open interval (0, dist), the diffraction loss is 0
and the Fresnel clearance fraction is 1, exactly as with no obstacle; the
automatically selected model, however, treats the obstacle as present on
field presence alone: for f ≥ 30 MHz it still returns `ITU_P526` (and for
f < 30 MHz it returns `FSPL`). -/
theorem obstacle_outside_path_treated_absent_except_selection
    (d f : ℝ) (t : TerrainProfile) (peak d1 : ℝ)
    (hp : t.obstaclePeakElevM = some peak)
    (hd : t.obstacleDistFromTxKm = some d1)
    (hout : d1 ≤ 0 ∨ d ≤ d1) :
    calcDiffractionLoss d f t = 0 ∧
    fresnelClearance d f t = 1 ∧
    (30 ≤ f → selectModel f d t = .ITU_P526) ∧
    (f < 30 → selectModel f d t = .FSPL) := by
  have hnu : fresnelParameter d f t = -2 := by
    simp only [fresnelParameter, hp, hd]
    rw [if_pos]
    rcases hout with h | h
    · exact Or.inl h
    · exact Or.inr (by linarith)
  refine ⟨?_, ?_, ?_, ?_⟩
  · simp only [calcDiffractionLoss, hnu, knifeEdgeDiffraction]
    rw [if_pos (by norm_num : (-2 : ℝ) < -1)]
    simp
  · simp only [fresnelClearance, hp, hd]
    rw [if_pos]
    rcases hout with h | h
    · exact Or.inl h
    · exact Or.inr (by linarith)
  · intro hf
    simp only [selectModel]
    rw [if_pos ⟨⟨by simp [hp], by simp [hd]⟩, hf⟩]
  · intro hf
    simp only [selectModel]
    rw [if_neg, if_pos hf]
    rintro ⟨-, h30⟩
    linarith

/-- Witness for the amended C3 at the concrete bad-obstacle terrain. -/
theorem obstacle_outside_path_treated_absent_except_selection_witness :
    calcDiffractionLoss 10 100 terrainObstacleOutside = 0 ∧
    fresnelClearance 10 100 terrainObstacleOutside = 1 ∧
    selectModel 100 10 terrainObstacleOutside = .ITU_P526 := by
  have h := obstacle_outside_path_treated_absent_except_selection 10 100
    terrainObstacleOutside 300 (-1) rfl rfl (Or.inl (by norm_num))
  exact ⟨h.1, h.2.1, h.2.2.1 (by norm_num)⟩

-- ── Structural facts about connectionQuality ─────────────────────────────────

lemma connectionQuality_score_eq (q : QualityParams) :
    (connectionQuality q).score =
      if q.linkMarginDb < 0 then
        min (weightedScore q) (max 0 (19 + round (q.linkMarginDb * 2)))
      else weightedScore q := rfl

lemma connectionQuality_availability_eq (q : QualityParams) :
    (connectionQuality q).availability =
      0.5 * (1 + erf (q.linkMarginDb / (8 * Real.sqrt 2))) := rfl

lemma connectionQuality_snr_eq (q : QualityParams) :
    (connectionQuality q).snrDb =
      q.receivedPowerDbm - thermalNoise (max q.bandwidthKhz 1) := rfl

lemma connectionQuality_label_eq (q : QualityParams) :
    (connectionQuality q).label = qualityLabel (connectionQuality q).score := rfl

-- ── C4 ───────────────────────────────────────────────────────────────────────

/-- C4: whenever the link margin is negative, the composite score equals the
minimum of the rounded weighted sum and `max 0 (19 + round (2·margin))`, and
is consequently strictly below 20. -/
theorem infeasible_margin_caps_score (q : QualityParams)
    (h : q.linkMarginDb < 0) :
    (connectionQuality q).score =
      min (weightedScore q) (max 0 (19 + round (q.linkMarginDb * 2))) ∧
    (connectionQuality q).score < 20 := by
  have hs := connectionQuality_score_eq q
  rw [if_pos h] at hs
  refine ⟨hs, ?_⟩
  have hfloor : round (q.linkMarginDb * 2) ≤ 0 := by
    rw [round_eq]
    have h1 : (⌊q.linkMarginDb * 2 + 1 / 2⌋ : ℤ) < 1 := by
      rw [Int.floor_lt]
      push_cast
      linarith
    omega
  have hcap : max 0 (19 + round (q.linkMarginDb * 2)) ≤ 19 :=
    max_le (by norm_num) (by omega)
  have hmin := min_le_right (weightedScore q)
    (max 0 (19 + round (q.linkMarginDb * 2)))
  omega

/-- Witness for C4 at margin −1 dB. -/
theorem infeasible_margin_caps_score_witness :
    (connectionQuality ⟨-1, 1, 0, 0, 0, 25, 0, 0⟩).score < 20 :=
  (infeasible_margin_caps_score ⟨-1, 1, 0, 0, 0, 25, 0, 0⟩ (by norm_num)).2

-- ── C9 ───────────────────────────────────────────────────────────────────────

/-- C9 counterexample: `thermalNoise` itself applies no clamp: at a bandwidth
of 0.01 kHz it returns −174 + 10·log₁₀(10) + 6 = −158 dBm, not the clamped
−174 + 10·log₁₀(1000) + 6 = −138 dBm the claim asserts for every bw < 1. -/
theorem thermalNoise_no_internal_clamp_counterexample :
    thermalNoise (1 / 100) ≠ -174 + 10 * logb 10 1000 + 6 := by
  have h10 : logb 10 ((1 : ℝ) / 100 * 1000) = 1 := by
    norm_num
  have h1000 : logb 10 (1000 : ℝ) = 3 := by
    rw [show (1000 : ℝ) = 10 ^ (3 : ℕ) by norm_num, Real.logb_pow,
      Real.logb_self_eq_one (by norm_num)]
    norm_num
  simp only [thermalNoise, NOISE_FIGURE_DB, h10, h1000]
  norm_num

/-- C9 amended: the clamp to ≥ 1 kHz is applied at the call site inside
`connectionQuality`, not inside `thermalNoise`: for every parameter record
with bandwidth below 1 kHz, the noise floor used for the SNR equals
−174 + 10·log₁₀(1·1000) + 6. -/
theorem bandwidth_clamped_at_call_site (q : QualityParams)
    (h : q.bandwidthKhz < 1) :
    thermalNoise (max q.bandwidthKhz 1) = -174 + 10 * logb 10 1000 + 6 ∧
    (connectionQuality q).snrDb =
      q.receivedPowerDbm - (-174 + 10 * logb 10 1000 + 6) := by
  have hmax : max q.bandwidthKhz 1 = 1 := max_eq_right h.le
  have hnoise : thermalNoise (max q.bandwidthKhz 1) =
      -174 + 10 * logb 10 1000 + 6 := by
    rw [hmax]
    simp only [thermalNoise, NOISE_FIGURE_DB, one_mul]
  exact ⟨hnoise, by rw [connectionQuality_snr_eq, hnoise]⟩

/-- Witness for the amended C9 at bandwidth 0.5 kHz. -/
theorem bandwidth_clamped_at_call_site_witness :
    thermalNoise (max (1 / 2 : ℝ) 1) = -174 + 10 * logb 10 1000 + 6 :=
  (bandwidth_clamped_at_call_site ⟨0, 1, 0, 0, 0, 1 / 2, 0, 0⟩ (by norm_num)).1

-- ── C6 ───────────────────────────────────────────────────────────────────────

/-- C6 counterexample: `gasAbsorption` at distance −1 km and 10 GHz returns
the negated specific attenuation, not 0, although its distance argument is
≤ 0. -/
theorem gasAbsorption_negative_distance_counterexample :
    gasAbsorption (-1) 10000 ≠ 0 := by
  simp only [gasAbsorption, specificGasAttenuation]
  norm_num

/-- C6 amended: `fspl` returns exactly 0 whenever its distance or frequency
argument is ≤ 0; `gasAbsorption`, `rainAttenuation` and `cloudFogAttenuation`
return exactly 0 whenever the distance is exactly 0 or the frequency is ≤ 0
(for strictly negative distances they scale their positive specific
attenuation by the distance and so can return a non-zero value). -/
theorem loss_function_zero_guards :
    (∀ d f : ℝ, d ≤ 0 ∨ f ≤ 0 → fspl d f = 0) ∧
    (∀ d f : ℝ, d = 0 ∨ f ≤ 0 → gasAbsorption d f = 0) ∧
    (∀ d f R : ℝ, d = 0 ∨ f ≤ 0 → rainAttenuation d f R = 0) ∧
    (∀ d f L : ℝ, d = 0 ∨ f ≤ 0 → cloudFogAttenuation d f L = 0) := by
  refine ⟨?_, ?_, ?_, ?_⟩
  · intro d f h
    simp only [fspl]
    rw [if_pos h]
  · intro d f h
    rcases h with h | h
    · simp [gasAbsorption, h]
    · have hz : specificGasAttenuation f = 0 := by
        simp only [specificGasAttenuation]
        rw [if_pos (by norm_num; linarith)]
      simp [gasAbsorption, hz]
  · intro d f R h
    rcases h with h | h
    · simp only [rainAttenuation]
      split_ifs with hg
      · rfl
      · simp [h]
    · simp only [rainAttenuation]
      rw [if_pos (Or.inr (by linarith))]
  · intro d f L h
    rcases h with h | h
    · simp only [cloudFogAttenuation]
      split_ifs with hg
      · rfl
      · simp [h]
    · simp only [cloudFogAttenuation]
      rw [if_pos (Or.inr (by linarith))]

/-- Witness for the amended C6 at concrete arguments. -/
theorem loss_function_zero_guards_witness :
    fspl (-1) 5 = 0 ∧ gasAbsorption 0 10000 = 0 ∧
    rainAttenuation 0 2000 30 = 0 ∧ cloudFogAttenuation 0 20000 1 = 0 :=
  ⟨loss_function_zero_guards.1 (-1) 5 (Or.inl (by norm_num)),
   loss_function_zero_guards.2.1 0 10000 (Or.inl rfl),
   loss_function_zero_guards.2.2.1 0 2000 30 (Or.inl rfl),
   loss_function_zero_guards.2.2.2 0 20000 1 (Or.inl rfl)⟩

-- ── C5 ───────────────────────────────────────────────────────────────────────

lemma rainAttenuation_nonpos_rate (d f R : ℝ) (h : R ≤ 0) :
    rainAttenuation d f R = 0 := by
  simp only [rainAttenuation]
  rw [if_pos (Or.inl h)]

/-- C5 counterexample: a negative rain rate is absorbed by the `≤ 0` domain
sentinel of `rainAttenuation` — the loss is 0, identical to the zero-rain
case, and no failure is raised anywhere. -/
theorem negative_rain_rate_sentinel_counterexample :
    rainAttenuation 10 15000 (-5) = 0 ∧
    rainAttenuation 10 15000 (-5) = rainAttenuation 10 15000 0 := by
  rw [rainAttenuation_nonpos_rate 10 15000 (-5) (by norm_num),
    rainAttenuation_nonpos_rate 10 15000 0 le_rfl]
  exact ⟨rfl, rfl⟩

set_option maxHeartbeats 1000000 in
/-- C5 amended: a negative rain rate is a domain sentinel, not a contract
violation: `rainAttenuation` returns 0 for every rate ≤ 0, and
`calcItuLinkBudget` returns the ordinary budget — identical to the one
computed with rain rate 0 — rather than propagating any failure. -/
theorem negative_rain_rate_is_sentinel :
    (∀ d f R : ℝ, R ≤ 0 → rainAttenuation d f R = 0) ∧
    (∀ (a b : LatLng) (link : RadioLink) (fe te : Option RadioEquipment)
      (p : PartialTerrainProfile) (force : Option PropagationModel) (R : ℝ),
      R ≤ 0 →
      calcItuLinkBudget a b link fe te (some { p with rainRateMmH := some R }) force =
        calcItuLinkBudget a b link fe te (some { p with rainRateMmH := some 0 }) force) := by
  refine ⟨rainAttenuation_nonpos_rate, ?_⟩
  intro a b link fe te p force R hR
  have hA : rainAttenuation (haversineKm a b) link.frequencyMhz
      ((mergeTerrain (some { p with rainRateMmH := some R })).rainRateMmH.getD 0) = 0 :=
    rainAttenuation_nonpos_rate _ _ _ (by exact hR)
  have hB : rainAttenuation (haversineKm a b) link.frequencyMhz
      ((mergeTerrain (some { p with rainRateMmH := some 0 })).rainRateMmH.getD 0) = 0 :=
    rainAttenuation_nonpos_rate _ _ _ (by exact le_rfl)
  simp only [calcItuLinkBudget]
  rw [hA, hB]
  rfl

/-- Witness for the amended C5: the negative-rain budget at a concrete input
coincides with the zero-rain budget. -/
theorem negative_rain_rate_is_sentinel_witness :
    calcItuLinkBudget ⟨59.33, 18.07⟩ ⟨59.34, 18.10⟩ ⟨15000, 500, 1⟩ none none
      (some { rainRateMmH := some (-5) }) none =
    calcItuLinkBudget ⟨59.33, 18.07⟩ ⟨59.34, 18.10⟩ ⟨15000, 500, 1⟩ none none
      (some { rainRateMmH := some 0 }) none := by
  have h := negative_rain_rate_is_sentinel.2 ⟨59.33, 18.07⟩ ⟨59.34, 18.10⟩
    ⟨15000, 500, 1⟩ none none {} none (-5) (by norm_num)
  exact h

-- ── C2 ───────────────────────────────────────────────────────────────────────

/-- C2 counterexample: the knife-edge loss is not monotone non-decreasing on
ν ≥ 0: with 0 ≤ 193/85 ≤ 12/5 the loss drops from −20·log₁₀(39/425) at
ν = 193/85 ≈ 2.27 to −20·log₁₀(3/32) at ν = 12/5 = 2.4 (a downward jump at
the ν = 2.4 branch boundary). -/
theorem knifeEdge_not_monotone_counterexample :
    (0 : ℝ) ≤ 193 / 85 ∧ (193 / 85 : ℝ) ≤ 12 / 5 ∧
    knifeEdgeDiffraction (12 / 5) < knifeEdgeDiffraction (193 / 85) := by
  refine ⟨by norm_num, by norm_num, ?_⟩
  have h1 : knifeEdgeDiffraction (193 / 85) = -20 * logb 10 (39 / 425) := by
    simp only [knifeEdgeDiffraction]
    rw [if_neg (by norm_num), if_neg (by norm_num), if_neg (by norm_num),
      if_pos (by norm_num)]
    rw [show (0.1184 : ℝ) - (0.38 - 0.1 * (193 / 85)) ^ 2 = (131 / 425) ^ 2 by norm_num,
      max_eq_right (by positivity), Real.sqrt_sq (by norm_num)]
    norm_num
  have h2 : knifeEdgeDiffraction (12 / 5) = -20 * logb 10 (3 / 32) := by
    simp only [knifeEdgeDiffraction]
    rw [if_neg (by norm_num), if_neg (by norm_num), if_neg (by norm_num),
      if_neg (by norm_num)]
    norm_num
  rw [h1, h2]
  have hlog := Real.logb_lt_logb (b := 10) (by norm_num)
    (show (0 : ℝ) < 39 / 425 by norm_num) (show (39 / 425 : ℝ) < 3 / 32 by norm_num)
  linarith

/-- C2 amended: the knife-edge loss is monotone non-decreasing within each
analytic branch of its piecewise definition on ν ≥ 0 — on [0, 1), on
[1, 2.4) and on [2.4, ∞) — but not globally, as it jumps downward across the
branch boundaries. -/
theorem knifeEdge_monotone_within_branches :
    (∀ x y : ℝ, 0 ≤ x → x ≤ y → y < 1 →
      knifeEdgeDiffraction x ≤ knifeEdgeDiffraction y) ∧
    (∀ x y : ℝ, 1 ≤ x → x ≤ y → y < 2.4 →
      knifeEdgeDiffraction x ≤ knifeEdgeDiffraction y) ∧
    (∀ x y : ℝ, 2.4 ≤ x → x ≤ y →
      knifeEdgeDiffraction x ≤ knifeEdgeDiffraction y) := by
  have branch1 : ∀ z : ℝ, 0 ≤ z → z < 1 →
      knifeEdgeDiffraction z = -20 * logb 10 (0.5 * Real.exp (-0.95 * z)) := by
    intro z h0 h1
    simp only [knifeEdgeDiffraction]
    rw [if_neg (by linarith), if_neg (by linarith), if_pos h1]
  have branch2 : ∀ z : ℝ, 1 ≤ z → z < 2.4 →
      knifeEdgeDiffraction z =
        -20 * logb 10 (0.4 - Real.sqrt (0.1184 - (0.38 - 0.1 * z) ^ 2)) := by
    intro z h1 h2
    simp only [knifeEdgeDiffraction]
    rw [if_neg (by linarith), if_neg (by linarith), if_neg (by linarith),
      if_pos h2, max_eq_right]
    nlinarith [sq_nonneg (0.38 - 0.1 * z)]
  have branch3 : ∀ z : ℝ, 2.4 ≤ z →
      knifeEdgeDiffraction z = -20 * logb 10 (0.225 / z) := by
    intro z h
    simp only [knifeEdgeDiffraction]
    rw [if_neg (by linarith), if_neg (by linarith), if_neg (by linarith),
      if_neg (by linarith)]
  refine ⟨?_, ?_, ?_⟩
  · intro x y hx hxy hy
    rw [branch1 x hx (by linarith), branch1 y (by linarith) hy]
    have hexp : Real.exp (-0.95 * y) ≤ Real.exp (-0.95 * x) :=
      Real.exp_le_exp.mpr (by linarith)
    have harg : (0.5 : ℝ) * Real.exp (-0.95 * y) ≤ 0.5 * Real.exp (-0.95 * x) := by
      linarith
    have hpos : (0 : ℝ) < 0.5 * Real.exp (-0.95 * y) := by positivity
    have := Real.logb_le_logb_of_le (b := 10) (by norm_num) hpos harg
    linarith
  · intro x y hx hxy hy
    rw [branch2 x hx (by linarith), branch2 y (by linarith) hy]
    have hsx : (0 : ℝ) ≤ 0.38 - 0.1 * y := by linarith
    have hsq : (0.38 - 0.1 * y) ^ 2 ≤ (0.38 - 0.1 * x) ^ 2 :=
      pow_le_pow_left₀ hsx (by linarith) 2
    have hin : (0.1184 : ℝ) - (0.38 - 0.1 * x) ^ 2 ≤
        0.1184 - (0.38 - 0.1 * y) ^ 2 := by linarith
    have hsqrt : Real.sqrt (0.1184 - (0.38 - 0.1 * x) ^ 2) ≤
        Real.sqrt (0.1184 - (0.38 - 0.1 * y) ^ 2) := Real.sqrt_le_sqrt hin
    have hylt : Real.sqrt (0.1184 - (0.38 - 0.1 * y) ^ 2) < 0.4 := by
      rw [Real.sqrt_lt' (by norm_num)]
      nlinarith [sq_nonneg (0.38 - 0.1 * y)]
    have hpos : (0 : ℝ) < 0.4 - Real.sqrt (0.1184 - (0.38 - 0.1 * y) ^ 2) := by
      linarith
    have harg : (0.4 : ℝ) - Real.sqrt (0.1184 - (0.38 - 0.1 * y) ^ 2) ≤
        0.4 - Real.sqrt (0.1184 - (0.38 - 0.1 * x) ^ 2) := by linarith
    have := Real.logb_le_logb_of_le (b := 10) (by norm_num) hpos harg
    linarith
  · intro x y hx hxy
    rw [branch3 x hx, branch3 y (by linarith)]
    have hxpos : (0 : ℝ) < x := by linarith
    have hypos : (0 : ℝ) < y := by linarith
    have harg : (0.225 : ℝ) / y ≤ 0.225 / x :=
      div_le_div_of_nonneg_left (by norm_num) hxpos hxy
    have hpos : (0 : ℝ) < 0.225 / y := by positivity
    have := Real.logb_le_logb_of_le (b := 10) (by norm_num) hpos harg
    linarith

/-- Witness for the amended C2 on the third branch at ν = 2.4 and ν = 3. -/
theorem knifeEdge_monotone_within_branches_witness :
    knifeEdgeDiffraction (12 / 5) ≤ knifeEdgeDiffraction 3 :=
  knifeEdge_monotone_within_branches.2.2 (12 / 5) 3 (by norm_num) (by norm_num)

-- ── C8 ───────────────────────────────────────────────────────────────────────

lemma erf_bounds (x : ℝ) : -1 ≤ erf x ∧ erf x ≤ 1 := by
  simp only [erf]
  have habs : (0 : ℝ) ≤ |x| := abs_nonneg x
  have hden : (0 : ℝ) < 1 + 0.3275911 * |x| := by nlinarith
  set t : ℝ := 1 / (1 + 0.3275911 * |x|) with htdef
  have ht0 : 0 < t := by rw [htdef]; positivity
  have ht1 : t ≤ 1 := by
    rw [htdef, div_le_one hden]
    nlinarith
  set P : ℝ := t * (0.254829592 + t * (-0.284496736 + t * (1.421413741 +
    t * (-1.453152027 + t * 1.061405429)))) with hPdef
  have hP0 : 0 ≤ P := by
    rw [hPdef]
    nlinarith [sq_nonneg t, sq_nonneg (t - 0.2), sq_nonneg (t - 1),
      sq_nonneg (t * t - t), sq_nonneg (t * t - 0.7 * t), ht0.le, ht1,
      mul_nonneg ht0.le ht0.le]
  have hP2 : P ≤ 1.2 := by
    rw [hPdef]
    nlinarith [sq_nonneg (t - 1), sq_nonneg (t * t - t), ht0.le, ht1,
      mul_nonneg ht0.le ht0.le, sq_nonneg (t * (t - 1)),
      mul_nonneg (mul_nonneg ht0.le ht0.le) ht0.le]
  have hE0 : 0 < Real.exp (-(|x| * |x|)) := Real.exp_pos _
  have hE1 : Real.exp (-(|x| * |x|)) ≤ 1 :=
    Real.exp_le_one_iff.mpr (by nlinarith [mul_self_nonneg |x|])
  have hPE0 : 0 ≤ P * Real.exp (-(|x| * |x|)) := mul_nonneg hP0 hE0.le
  have hPE2 : P * Real.exp (-(|x| * |x|)) ≤ 1.2 := by nlinarith
  split_ifs with hx
  · constructor <;> nlinarith
  · constructor <;> nlinarith

lemma weightedScore_bounds (q : QualityParams)
    (hr : 0 ≤ q.rainAttenuationDb) (hc : 0 ≤ q.cloudFogAttenuationDb) :
    0 ≤ weightedScore q ∧ weightedScore q ≤ 100 := by
  simp only [weightedScore]
  set m : ℝ := min 50 (max 0 (q.linkMarginDb / 30 * 50)) with hm
  set fr : ℝ := min 20 (max 0 (q.fresnelClearanceFraction * 20)) with hf
  set g : ℝ := min 10 (max 0 ((q.txGainDbi + q.rxGainDbi) / 20 * 10)) with hg
  set L : ℝ := q.rainAttenuationDb + q.cloudFogAttenuationDb with hL
  have hL0 : 0 ≤ L := by rw [hL]; linarith
  have hmax : max (L + 10) 10 = L + 10 := max_eq_left (by linarith)
  have hrel0 : 0 ≤ max 0 (1 - L / max (L + 10) 10) := le_max_left _ _
  have hrel1 : max 0 (1 - L / max (L + 10) 10) ≤ 1 := by
    rw [hmax]
    refine max_le (by norm_num) ?_
    have : 0 ≤ L / (L + 10) := div_nonneg hL0 (by linarith)
    linarith
  have hm0 : 0 ≤ m := le_min (by norm_num) (le_max_left _ _)
  have hm1 : m ≤ 50 := min_le_left _ _
  have hf0 : 0 ≤ fr := le_min (by norm_num) (le_max_left _ _)
  have hf1 : fr ≤ 20 := min_le_left _ _
  have hg0 : 0 ≤ g := le_min (by norm_num) (le_max_left _ _)
  have hg1 : g ≤ 10 := min_le_left _ _
  have hsum0 : (0 : ℝ) ≤ m + fr + max 0 (1 - L / max (L + 10) 10) * 20 + g := by
    nlinarith
  have hsum1 : m + fr + max 0 (1 - L / max (L + 10) 10) * 20 + g ≤ 100 := by
    nlinarith
  constructor
  · rw [round_eq, Int.le_floor]
    push_cast
    linarith
  · rw [round_eq]
    have : (⌊m + fr + max 0 (1 - L / max (L + 10) 10) * 20 + g + 1 / 2⌋ : ℤ) < 101 := by
      rw [Int.floor_lt]
      push_cast
      linarith
    omega

/-- C8 counterexample: with a (finite) negative weather-loss input the
composite score exceeds 100: at margin 30 dB, clearance 1, gains 10 + 10 dBi
and rain attenuation −1000 dB the weather sub-score is unclamped above and
the returned score is 2100. -/
theorem quality_score_bound_counterexample :
    100 < (connectionQuality ⟨30, 1, 10, 10, 0, 25, -1000, 0⟩).score := by
  have hs : (connectionQuality ⟨30, 1, 10, 10, 0, 25, -1000, 0⟩).score =
      weightedScore ⟨30, 1, 10, 10, 0, 25, -1000, 0⟩ := by
    rw [connectionQuality_score_eq, if_neg (by norm_num)]
  rw [hs]
  have hws : weightedScore ⟨30, 1, 10, 10, 0, 25, -1000, 0⟩ = 2100 := by
    simp only [weightedScore]
    norm_num [min_def, max_def, round_eq]
  omega

/-- C8 amended: for every parameter record whose weather losses are
non-negative (as the rain and cloud/fog attenuation functions always return
on the engine's own path), the composite score lies in [0, 100], the
availability lies in [0, 1], and the label is the band obtained by applying
the 80/60/40/20 thresholds to the returned score; with negative weather-loss
inputs the weather sub-score is unclamped above and the score bound fails. -/
theorem quality_bounds_for_nonneg_weather (q : QualityParams)
    (hr : 0 ≤ q.rainAttenuationDb) (hc : 0 ≤ q.cloudFogAttenuationDb) :
    0 ≤ (connectionQuality q).score ∧ (connectionQuality q).score ≤ 100 ∧
    0 ≤ (connectionQuality q).availability ∧
    (connectionQuality q).availability ≤ 1 ∧
    (connectionQuality q).label =
      (if 80 ≤ (connectionQuality q).score then "Utmärkt"
       else if 60 ≤ (connectionQuality q).score then "God"
       else if 40 ≤ (connectionQuality q).score then "Acceptabel"
       else if 20 ≤ (connectionQuality q).score then "Svag"
       else "Otillräcklig") := by
  obtain ⟨hws0, hws1⟩ := weightedScore_bounds q hr hc
  have hscore := connectionQuality_score_eq q
  have hs0 : 0 ≤ (connectionQuality q).score := by
    rw [hscore]
    split_ifs
    · exact le_min hws0 (le_max_left _ _)
    · exact hws0
  have hs1 : (connectionQuality q).score ≤ 100 := by
    rw [hscore]
    split_ifs
    · exact le_trans (min_le_left _ _) hws1
    · exact hws1
  obtain ⟨he0, he1⟩ := erf_bounds (q.linkMarginDb / (8 * Real.sqrt 2))
  have ha := connectionQuality_availability_eq q
  refine ⟨hs0, hs1, ?_, ?_, ?_⟩
  · rw [ha]; linarith
  · rw [ha]; linarith
  · exact connectionQuality_label_eq q

/-- Witness for the amended C8 at a concrete zero-weather input. -/
theorem quality_bounds_for_nonneg_weather_witness :
    0 ≤ (connectionQuality ⟨10, 1, 3, 3, -80, 25, 0, 0⟩).score ∧
    (connectionQuality ⟨10, 1, 3, 3, -80, 25, 0, 0⟩).score ≤ 100 ∧
    0 ≤ (connectionQuality ⟨10, 1, 3, 3, -80, 25, 0, 0⟩).availability ∧
    (connectionQuality ⟨10, 1, 3, 3, -80, 25, 0, 0⟩).availability ≤ 1 := by
  have h := quality_bounds_for_nonneg_weather ⟨10, 1, 3, 3, -80, 25, 0, 0⟩
    (by norm_num) (by norm_num)
  exact ⟨h.1, h.2.1, h.2.2.1, h.2.2.2.1⟩

end

end RadioProp
